import Mathlib

/-!
Shallow embedding of the solar pro-forma calculation engine (src/app.py).

Numbers are modelled with ℚ (exact decimal arithmetic); decimal literals such
as 0.90 denote the exact rationals the source writes.  Python's
`for y in range(1, 26)` is rendered as a map over `List.range 25` with
`y = i + 1`.  Names follow the source's variable names.
-/

namespace SolarProforma

/-- Jurisdiction selectbox (app.py line 151): "Maryland" or "Washington DC". -/
inductive Jurisdiction where
  | Maryland
  | WashingtonDC
deriving DecidableEq

/-- SREC program selection (app.py lines 223-232): for Maryland the selectbox
offers "Standard SREC" and "Brighter Tomorrow SREC"; for DC the program is
forced to the string "Standard SREC (DC)". -/
inductive SrecProgram where
  | StandardSREC
  | BrighterTomorrowSREC
  | DCStandard
deriving DecidableEq

/-- The 17 named pricing inputs in $/W (app.py lines 263-285). -/
structure PricingSchedule where
  modules : ℚ
  inverters : ℚ
  racking : ℚ
  ballast_block : ℚ
  electrical_material : ℚ
  other_materials : ℚ
  equipment_rental : ℚ
  roof_attachments : ℚ
  dumpsters : ℚ
  porta_john : ℚ
  safety_equipment : ℚ
  engineering : ℚ
  stamps : ℚ
  permits : ℚ
  revenue_grade_meters : ℚ
  ix_application_fees : ℚ
  origination_costs : ℚ

/-- The values of the `pricing_inputs` dict, in insertion order (app.py 263-285). -/
def pricing_costs (p : PricingSchedule) : List ℚ :=
  [p.modules, p.inverters, p.racking, p.ballast_block, p.electrical_material,
   p.other_materials, p.equipment_rental, p.roof_attachments, p.dumpsters,
   p.porta_john, p.safety_equipment, p.engineering, p.stamps, p.permits,
   p.revenue_grade_meters, p.ix_application_fees, p.origination_costs]

/-- The scalar form inputs feeding the calculation engine. `itc_enabled`
models `itc_status == "With ITC (30%)"`; `escalation` is the parsed
escalation fraction (app.py line 241). -/
structure Inputs where
  system_size_kw : ℚ
  electric_rate : ℚ
  tsrf : ℚ
  tax_bracket : ℚ
  jurisdiction : Jurisdiction
  srec_program : SrecProgram
  itc_enabled : Bool
  escalation : ℚ
  degradation : ℚ
  pricing : PricingSchedule

/-- `system_size_w = system_size_kw * 1000` (app.py line 142). -/
def system_size_w (inp : Inputs) : ℚ := inp.system_size_kw * 1000

/-- `total_per_watt = sum(pricing_inputs.values())` (app.py line 288). -/
def total_per_watt (inp : Inputs) : ℚ := (pricing_costs inp.pricing).sum

/-- `total_cost = total_per_watt * system_size_w` (app.py line 289). -/
def total_cost (inp : Inputs) : ℚ := total_per_watt inp * system_size_w inp

/-- `year1_production = system_size_kw * tsrf` (app.py line 295). -/
def year1_production (inp : Inputs) : ℚ := inp.system_size_kw * inp.tsrf

/-- `year1_savings = year1_production * electric_rate` (app.py line 296). -/
def year1_savings (inp : Inputs) : ℚ := year1_production inp * inp.electric_rate

/-- The standalone year-1 SREC unit value (app.py lines 299-305). -/
def srec_value (inp : Inputs) : ℚ :=
  match inp.jurisdiction with
  | Jurisdiction.Maryland =>
      if inp.srec_program = SrecProgram.StandardSREC then 55 * 0.90
      else 55 * 0.90 * 1.5
  | Jurisdiction.WashingtonDC => 460 * 0.85

/-- `year1_srecs = year1_production / 1000` (app.py line 307). -/
def year1_srecs (inp : Inputs) : ℚ := year1_production inp / 1000

/-- `year1_srec_income = year1_srecs * srec_value` (app.py line 308). -/
def year1_srec_income (inp : Inputs) : ℚ := year1_srecs inp * srec_value inp

/-- `itc_amount` (app.py lines 311-315). -/
def itc_amount (inp : Inputs) : ℚ :=
  if inp.itc_enabled then total_cost inp * 0.30 else 0

/-- `depreciable_basis` (app.py lines 311-316). -/
def depreciable_basis (inp : Inputs) : ℚ :=
  if inp.itc_enabled then total_cost inp * 0.85 else total_cost inp

/-- `year1_depreciation = depreciable_basis` (app.py line 318). -/
def year1_depreciation (inp : Inputs) : ℚ := depreciable_basis inp

/-- `year1_depreciation_tax_savings = year1_depreciation * tax_bracket` (app.py line 319). -/
def year1_depreciation_tax_savings (inp : Inputs) : ℚ :=
  year1_depreciation inp * inp.tax_bracket

/-- `after_itc_cost = total_cost - itc_amount` (app.py line 321). -/
def after_itc_cost (inp : Inputs) : ℚ := total_cost inp - itc_amount inp

/-- `simple_payback` with the guarded division (app.py line 325). -/
def simple_payback (inp : Inputs) : ℚ :=
  if year1_savings inp + year1_srec_income inp > 0 then
    after_itc_cost inp / (year1_savings inp + year1_srec_income inp)
  else 0

/-- `md_acp = [55, 45, 35, 30, 30, 30, 30, 30, 0] + [0] * 16` (app.py line 553). -/
def md_acp : List ℚ :=
  [55, 45, 35, 30, 30, 30, 30, 30, 0] ++ List.replicate 16 0

/-- `dc_acp = [460, ..., 300] + [100] * 8` (app.py line 554). -/
def dc_acp : List ℚ :=
  [460, 440, 420, 400, 380, 360, 340, 320, 300, 300, 300, 300, 300, 300, 300, 300, 300]
    ++ List.replicate 8 100

/-- `acp_schedule = dc_acp if jurisdiction == "Washington DC" else md_acp` (app.py line 556). -/
def acp_schedule (j : Jurisdiction) : List ℚ :=
  if j = Jurisdiction.WashingtonDC then dc_acp else md_acp

/-- `srec_multiplier = 1.5 if srec_program == "Brighter Tomorrow SREC" else 1.0` (app.py line 557). -/
def srec_multiplier (p : SrecProgram) : ℚ :=
  if p = SrecProgram.BrighterTomorrowSREC then 1.5 else 1.0

/-- `srec_pct = 0.85 if jurisdiction == "Washington DC" else 0.90` (app.py line 558). -/
def srec_pct (j : Jurisdiction) : ℚ :=
  if j = Jurisdiction.WashingtonDC then 0.85 else 0.90

/-- `electric_rate_year = electric_rate * ((1 + escalation) ** (year - 1))` (app.py line 568). -/
def electric_rate_year (inp : Inputs) (year : ℕ) : ℚ :=
  inp.electric_rate * (1 + inp.escalation) ^ (year - 1)

/-- `production = year1_production * ((1 - degradation) ** (year - 1))` (app.py line 573). -/
def production_year (inp : Inputs) (year : ℕ) : ℚ :=
  year1_production inp * (1 - inp.degradation) ^ (year - 1)

/-- `savings = production * electric_rate_year` (app.py line 578). -/
def savings_year (inp : Inputs) (year : ℕ) : ℚ :=
  production_year inp year * electric_rate_year inp year

/-- `acp = acp_schedule[year - 1] if year <= len(acp_schedule) else 0` (app.py line 583);
the in-bounds index is rendered with `getD` (the default is shown unreachable
for years 1..25 in `claim_C10`). -/
def acp_for_year (inp : Inputs) (year : ℕ) : ℚ :=
  if year ≤ (acp_schedule inp.jurisdiction).length then
    (acp_schedule inp.jurisdiction).getD (year - 1) 0
  else 0

/-- `srec_val = acp * srec_pct * srec_multiplier` (app.py line 584). -/
def srec_val_year (inp : Inputs) (year : ℕ) : ℚ :=
  acp_for_year inp year * srec_pct inp.jurisdiction * srec_multiplier inp.srec_program

/-- `srecs = production / 1000` (app.py line 589). -/
def srecs_year (inp : Inputs) (year : ℕ) : ℚ :=
  production_year inp year / 1000

/-- `srec_income = srecs * srec_val` (app.py line 594). -/
def srec_income_year (inp : Inputs) (year : ℕ) : ℚ :=
  srecs_year inp year * srec_val_year inp year

/-- `tax_savings = year1_depreciation_tax_savings if year == 1 else 0` (app.py line 599). -/
def tax_savings_year (inp : Inputs) (year : ℕ) : ℚ :=
  if year = 1 then year1_depreciation_tax_savings inp else 0

/-- `total_benefit = savings + srec_income + tax_savings` (app.py line 604). -/
def total_benefit_year (inp : Inputs) (year : ℕ) : ℚ :=
  savings_year inp year + srec_income_year inp year + tax_savings_year inp year

/-- The running `cumulative` variable after processing years 1..n; it starts at
`-after_itc_cost` (app.py line 560) and adds `total_benefit` each year
(app.py line 610). -/
def cumulative_through (inp : Inputs) : ℕ → ℚ
  | 0 => -after_itc_cost inp
  | n + 1 => cumulative_through inp n + total_benefit_year inp (n + 1)

/-- One row of the "25-Year Cash Flow" sheet (app.py lines 562-612). -/
structure YearRecord where
  year : ℕ
  electric_rate : ℚ
  production : ℚ
  electric_savings : ℚ
  srec_val : ℚ
  srecs : ℚ
  srec_income : ℚ
  tax_savings : ℚ
  total_benefit : ℚ
  cumulative : ℚ

/-- The record written for a given year of the cash-flow loop. -/
def year_record (inp : Inputs) (year : ℕ) : YearRecord :=
  { year := year
    electric_rate := electric_rate_year inp year
    production := production_year inp year
    electric_savings := savings_year inp year
    srec_val := srec_val_year inp year
    srecs := srecs_year inp year
    srec_income := srec_income_year inp year
    tax_savings := tax_savings_year inp year
    total_benefit := total_benefit_year inp year
    cumulative := cumulative_through inp year }

/-- The ordered 25-row cash-flow table, `for year in range(1, 26)` (app.py line 562). -/
def cash_flow (inp : Inputs) : List YearRecord :=
  (List.range 25).map (fun i => year_record inp (i + 1))

/-- `total_electric_savings` closed-form recomputation on the Client Summary
sheet (app.py line 685). -/
def total_electric_savings (inp : Inputs) : ℚ :=
  ((List.range 25).map (fun i =>
    year1_production inp * inp.electric_rate * (1 + inp.escalation) ^ (i + 1 - 1)
      * (1 - inp.degradation) ^ (i + 1 - 1))).sum

/-- `total_srec_income` closed-form recomputation on the Client Summary sheet
(app.py line 686). -/
def total_srec_income (inp : Inputs) : ℚ :=
  ((List.range 25).map (fun i =>
    (year1_production inp * (1 - inp.degradation) ^ (i + 1 - 1) / 1000) *
      (if i + 1 ≤ (acp_schedule inp.jurisdiction).length then
        (acp_schedule inp.jurisdiction).getD (i + 1 - 1) 0 * srec_pct inp.jurisdiction
          * srec_multiplier inp.srec_program
       else 0))).sum

/-- `grand_total = total_electric_savings + total_srec_income + year1_depreciation_tax_savings`
(app.py line 687). -/
def grand_total (inp : Inputs) : ℚ :=
  total_electric_savings inp + total_srec_income inp + year1_depreciation_tax_savings inp

/-- Modelled from the spec: the Pricing Aggregator's input-range rejection.
src/app.py contains no ValidationError; range enforcement lives in the form
widget bounds (app.py lines 141, 263-285: each cost min 0, size min 1), so the
error type is taken from the spec sentence "reject negative costs or
non-positive size as a ValidationError". -/
inductive ValidationError where
  | negativeCost
  | nonPositiveSize
deriving DecidableEq

/-- Modelled from the spec: the Pricing Aggregator with validation — reject a
negative unit cost or a non-positive system size, otherwise return
(totalUnitCost, totalCost) exactly as app.py lines 288-289 compute them. -/
def aggregate_pricing (p : PricingSchedule) (size_kw : ℚ) :
    Except ValidationError (ℚ × ℚ) :=
  if (pricing_costs p).any (fun c => decide (c < 0)) then
    Except.error ValidationError.negativeCost
  else if size_kw ≤ 0 then
    Except.error ValidationError.nonPositiveSize
  else
    Except.ok ((pricing_costs p).sum, (pricing_costs p).sum * (size_kw * 1000))

/-- A concrete input used by the witness theorems. -/
def exInp : Inputs :=
  { system_size_kw := 100
    electric_rate := 0.1
    tsrf := 1000
    tax_bracket := 0.2
    jurisdiction := Jurisdiction.Maryland
    srec_program := SrecProgram.StandardSREC
    itc_enabled := true
    escalation := 0.05
    degradation := 0.005
    pricing :=
      { modules := 1, inverters := 0, racking := 0, ballast_block := 0,
        electrical_material := 0, other_materials := 0, equipment_rental := 0,
        roof_attachments := 0, dumpsters := 0, porta_john := 0,
        safety_equipment := 0, engineering := 0, stamps := 0, permits := 0,
        revenue_grade_meters := 0, ix_application_fees := 0, origination_costs := 0 } }

/-- C1: for every year y in 1..25 the projector's electric rate is
baseRate × (1+escalation)^(y−1) and its production is
year1Production × (1−degradation)^(y−1); year 1 uses the unescalated base
rate and the full year-1 production. -/
theorem claim_C1 (inp : Inputs) (y : ℕ) (h1 : 1 ≤ y) (h2 : y ≤ 25) :
    electric_rate_year inp y = inp.electric_rate * (1 + inp.escalation) ^ (y - 1)
      ∧ production_year inp y = year1_production inp * (1 - inp.degradation) ^ (y - 1)
      ∧ electric_rate_year inp 1 = inp.electric_rate
      ∧ production_year inp 1 = year1_production inp := by
  refine ⟨rfl, rfl, ?_, ?_⟩ <;>
    simp [electric_rate_year, production_year]

theorem claim_C1_witness :
    (1 ≤ 5 ∧ 5 ≤ 25)
      ∧ (electric_rate_year exInp 5 = exInp.electric_rate * (1 + exInp.escalation) ^ (5 - 1)
          ∧ production_year exInp 5 = year1_production exInp * (1 - exInp.degradation) ^ (5 - 1)
          ∧ electric_rate_year exInp 1 = exInp.electric_rate
          ∧ production_year exInp 1 = year1_production exInp) :=
  ⟨⟨by decide, by decide⟩, claim_C1 exInp 5 (by decide) (by decide)⟩

/-- C2: for every year y in 1..25, srecUnitValue = acpForYear × availabilityFactor
× enhancedMultiplier, where the Maryland ACP follows [55,45,35,30,30,30,30,30,0]
with 0 afterwards and factor 0.90, the DC ACP follows the 17-entry schedule with
floor 100 afterwards and factor 0.85, and the multiplier is 1.5 exactly when the
Brighter Tomorrow program is selected. -/
theorem claim_C2 (inp : Inputs) (y : ℕ) (h1 : 1 ≤ y) (h2 : y ≤ 25) :
    srec_val_year inp y
        = acp_for_year inp y * srec_pct inp.jurisdiction * srec_multiplier inp.srec_program
      ∧ (inp.jurisdiction = Jurisdiction.Maryland →
          acp_for_year inp y = ([55, 45, 35, 30, 30, 30, 30, 30, 0] : List ℚ).getD (y - 1) 0
            ∧ srec_pct inp.jurisdiction = 0.90)
      ∧ (inp.jurisdiction = Jurisdiction.WashingtonDC →
          acp_for_year inp y
              = ([460, 440, 420, 400, 380, 360, 340, 320, 300, 300, 300, 300, 300,
                  300, 300, 300, 300] : List ℚ).getD (y - 1) 100
            ∧ srec_pct inp.jurisdiction = 0.85)
      ∧ srec_multiplier inp.srec_program
          = (if inp.srec_program = SrecProgram.BrighterTomorrowSREC then 1.5 else 1.0) := by
  refine ⟨rfl, ?_, ?_, rfl⟩
  · intro hj
    refine ⟨?_, by simp [srec_pct, hj]⟩
    simp only [acp_for_year, acp_schedule, hj]
    interval_cases y <;> rfl
  · intro hj
    refine ⟨?_, by simp [srec_pct, hj]⟩
    simp only [acp_for_year, acp_schedule, hj]
    interval_cases y <;> rfl

theorem claim_C2_witness :
    (1 ≤ 9 ∧ 9 ≤ 25)
      ∧ (srec_val_year exInp 9
            = acp_for_year exInp 9 * srec_pct exInp.jurisdiction
              * srec_multiplier exInp.srec_program
          ∧ (exInp.jurisdiction = Jurisdiction.Maryland →
              acp_for_year exInp 9
                  = ([55, 45, 35, 30, 30, 30, 30, 30, 0] : List ℚ).getD (9 - 1) 0
                ∧ srec_pct exInp.jurisdiction = 0.90)
          ∧ (exInp.jurisdiction = Jurisdiction.WashingtonDC →
              acp_for_year exInp 9
                  = ([460, 440, 420, 400, 380, 360, 340, 320, 300, 300, 300, 300, 300,
                      300, 300, 300, 300] : List ℚ).getD (9 - 1) 100
                ∧ srec_pct exInp.jurisdiction = 0.85)
          ∧ srec_multiplier exInp.srec_program
              = (if exInp.srec_program = SrecProgram.BrighterTomorrowSREC then 1.5 else 1.0)) :=
  ⟨⟨by decide, by decide⟩, claim_C2 exInp 9 (by decide) (by decide)⟩

/-- The running cumulative equals the initial −afterITCCost plus the sum of the
total benefits of the years processed so far. -/
theorem cumulative_through_closed (inp : Inputs) (n : ℕ) :
    cumulative_through inp n
      = -after_itc_cost inp
        + ((List.range n).map (fun i => total_benefit_year inp (i + 1))).sum := by
  induction n with
  | zero => simp [cumulative_through]
  | succ n ih =>
      rw [cumulative_through, ih, List.range_succ]
      simp [List.sum_append]
      ring

/-- C3: the cumulative benefit starts at −afterITCCost, obeys the per-year
recurrence cumulative[y] = cumulative[y−1] + totalBenefit[y] for y in 1..25,
and at year 25 equals −afterITCCost plus the sum of all 25 total benefits. -/
theorem claim_C3 (inp : Inputs) :
    cumulative_through inp 0 = -after_itc_cost inp
      ∧ (∀ y, 1 ≤ y → y ≤ 25 →
          cumulative_through inp y
            = cumulative_through inp (y - 1) + total_benefit_year inp y)
      ∧ cumulative_through inp 25
          = -after_itc_cost inp
            + ((List.range 25).map (fun i => total_benefit_year inp (i + 1))).sum := by
  refine ⟨rfl, ?_, cumulative_through_closed inp 25⟩
  intro y h1 h2
  cases y with
  | zero => omega
  | succ n => simp [cumulative_through]

theorem claim_C3_witness :
    cumulative_through exInp 0 = -after_itc_cost exInp
      ∧ (1 ≤ 5 ∧ 5 ≤ 25)
      ∧ cumulative_through exInp 5
          = cumulative_through exInp (5 - 1) + total_benefit_year exInp 5 :=
  ⟨(claim_C3 exInp).1, ⟨by decide, by decide⟩,
    (claim_C3 exInp).2.1 5 (by decide) (by decide)⟩

/-- C10: both embedded ACP schedules have exactly 25 entries, so for every
year 1..25 the index year−1 is in bounds and the out-of-range fallback of the
guarded lookup is never taken. -/
theorem claim_C10 (inp : Inputs) (y : ℕ) (h1 : 1 ≤ y) (h2 : y ≤ 25) :
    md_acp.length = 25 ∧ dc_acp.length = 25
      ∧ y ≤ (acp_schedule inp.jurisdiction).length
      ∧ y - 1 < (acp_schedule inp.jurisdiction).length
      ∧ acp_for_year inp y = (acp_schedule inp.jurisdiction).getD (y - 1) 0 := by
  have hlen : (acp_schedule inp.jurisdiction).length = 25 := by
    rcases inp.jurisdiction <;> decide
  refine ⟨by decide, by decide, by omega, by omega, ?_⟩
  rw [acp_for_year, if_pos (by omega)]

theorem claim_C10_witness :
    (1 ≤ 25 ∧ 25 ≤ 25)
      ∧ (md_acp.length = 25 ∧ dc_acp.length = 25
          ∧ 25 ≤ (acp_schedule exInp.jurisdiction).length
          ∧ 25 - 1 < (acp_schedule exInp.jurisdiction).length
          ∧ acp_for_year exInp 25 = (acp_schedule exInp.jurisdiction).getD (25 - 1) 0) :=
  ⟨⟨by decide, by decide⟩, claim_C10 exInp 25 (by decide) (by decide)⟩

/-- C6: simplePayback is afterITCCost / (year1Savings + year1SRECIncome) when
that denominator is strictly positive and the sentinel 0 when it is ≤ 0; the
guarded definition evaluates the division only under a positive denominator. -/
theorem claim_C6 (inp : Inputs) :
    (0 < year1_savings inp + year1_srec_income inp →
        simple_payback inp
          = after_itc_cost inp / (year1_savings inp + year1_srec_income inp))
      ∧ (year1_savings inp + year1_srec_income inp ≤ 0 → simple_payback inp = 0) := by
  constructor
  · intro h
    simp [simple_payback, h]
  · intro h
    simp [simple_payback, not_lt.mpr h]

theorem claim_C6_witness :
    0 < year1_savings exInp + year1_srec_income exInp
      ∧ simple_payback exInp
          = after_itc_cost exInp / (year1_savings exInp + year1_srec_income exInp) :=
  ⟨by norm_num [year1_savings, year1_production, year1_srec_income, year1_srecs,
        srec_value, exInp],
   (claim_C6 exInp).1 (by norm_num [year1_savings, year1_production, year1_srec_income,
        year1_srecs, srec_value, exInp])⟩

/-- C7: totalUnitCost is the sum of the 17 unit costs and
totalCost = totalUnitCost × systemSizeKW × 1000, for any positive system size. -/
theorem claim_C7 (inp : Inputs) (h : 0 < inp.system_size_kw) :
    total_per_watt inp
        = inp.pricing.modules + inp.pricing.inverters + inp.pricing.racking
          + inp.pricing.ballast_block + inp.pricing.electrical_material
          + inp.pricing.other_materials + inp.pricing.equipment_rental
          + inp.pricing.roof_attachments + inp.pricing.dumpsters
          + inp.pricing.porta_john + inp.pricing.safety_equipment
          + inp.pricing.engineering + inp.pricing.stamps + inp.pricing.permits
          + inp.pricing.revenue_grade_meters + inp.pricing.ix_application_fees
          + inp.pricing.origination_costs
      ∧ total_cost inp = total_per_watt inp * inp.system_size_kw * 1000 := by
  constructor
  · simp [total_per_watt, pricing_costs]
    ring
  · simp [total_cost, system_size_w]
    ring

theorem claim_C7_witness :
    (0 : ℚ) < exInp.system_size_kw
      ∧ total_cost exInp = total_per_watt exInp * exInp.system_size_kw * 1000 :=
  ⟨by decide, (claim_C7 exInp (by decide)).2⟩

/-- C8: with ITC enabled, itcAmount = 0.30 × totalCost,
depreciableBasis = 0.85 × totalCost and afterITCCost = 0.70 × totalCost;
with ITC disabled, itcAmount = 0 and both basis and after-ITC cost equal
totalCost; in both cases the year-1 depreciation tax savings is
depreciableBasis × taxBracket. -/
theorem claim_C8 (inp : Inputs) :
    (inp.itc_enabled = true →
        itc_amount inp = total_cost inp * 0.30
          ∧ depreciable_basis inp = total_cost inp * 0.85
          ∧ after_itc_cost inp = total_cost inp * 0.70)
      ∧ (inp.itc_enabled = false →
          itc_amount inp = 0
            ∧ depreciable_basis inp = total_cost inp
            ∧ after_itc_cost inp = total_cost inp)
      ∧ year1_depreciation_tax_savings inp = depreciable_basis inp * inp.tax_bracket := by
  refine ⟨?_, ?_, rfl⟩
  · intro h
    refine ⟨by simp [itc_amount, h], by simp [depreciable_basis, h], ?_⟩
    simp [after_itc_cost, itc_amount, h]
    ring
  · intro h
    exact ⟨by simp [itc_amount, h], by simp [depreciable_basis, h],
      by simp [after_itc_cost, itc_amount, h]⟩

theorem claim_C8_witness :
    exInp.itc_enabled = true
      ∧ (itc_amount exInp = total_cost exInp * 0.30
          ∧ depreciable_basis exInp = total_cost exInp * 0.85
          ∧ after_itc_cost exInp = total_cost exInp * 0.70) :=
  ⟨by decide, (claim_C8 exInp).1 (by decide)⟩

/-- C4: the year-1 record of the cash-flow table agrees with the standalone
Year-1 Metrics Calculator on rate, production, savings, SREC unit value, SREC
count and SREC income, for every jurisdiction/program pair the form can
produce (the form ties the DC jurisdiction to the DC program, app.py 223-232). -/
theorem claim_C4 (inp : Inputs)
    (hwf : inp.jurisdiction = Jurisdiction.WashingtonDC
             ↔ inp.srec_program = SrecProgram.DCStandard) :
    (year_record inp 1).electric_rate = inp.electric_rate
      ∧ (year_record inp 1).production = year1_production inp
      ∧ (year_record inp 1).electric_savings = year1_savings inp
      ∧ (year_record inp 1).srec_val = srec_value inp
      ∧ (year_record inp 1).srecs = year1_srecs inp
      ∧ (year_record inp 1).srec_income = year1_srec_income inp := by
  have hprod : production_year inp 1 = year1_production inp := by
    simp [production_year]
  have hval : srec_val_year inp 1 = srec_value inp := by
    rcases hj : inp.jurisdiction with _ | _
    · rcases hp : inp.srec_program with _ | _ | _
      · simp [srec_val_year, acp_for_year, acp_schedule, srec_pct, srec_multiplier,
              srec_value, hj, hp, md_acp]
        norm_num
      · simp [srec_val_year, acp_for_year, acp_schedule, srec_pct, srec_multiplier,
              srec_value, hj, hp, md_acp]
      · exfalso
        have h := hwf.mpr hp
        rw [hj] at h
        exact Jurisdiction.noConfusion h
    · have hp := hwf.mp hj
      simp [srec_val_year, acp_for_year, acp_schedule, srec_pct, srec_multiplier,
            srec_value, hj, hp, dc_acp]
      norm_num
  refine ⟨by simp [year_record, electric_rate_year], by simp [year_record, hprod], ?_,
          by simp [year_record, hval],
          by simp [year_record, srecs_year, hprod, year1_srecs], ?_⟩
  · simp [year_record, savings_year, electric_rate_year, hprod, year1_savings]
  · simp [year_record, srec_income_year, srecs_year, hprod, hval, year1_srecs,
          year1_srec_income]

theorem claim_C4_witness :
    (exInp.jurisdiction = Jurisdiction.WashingtonDC
        ↔ exInp.srec_program = SrecProgram.DCStandard)
      ∧ ((year_record exInp 1).electric_rate = exInp.electric_rate
          ∧ (year_record exInp 1).production = year1_production exInp
          ∧ (year_record exInp 1).electric_savings = year1_savings exInp
          ∧ (year_record exInp 1).srec_val = srec_value exInp
          ∧ (year_record exInp 1).srecs = year1_srecs exInp
          ∧ (year_record exInp 1).srec_income = year1_srec_income exInp) :=
  ⟨by decide, claim_C4 exInp (by decide)⟩

/-- Sum of a pointwise addition of two mapped functions splits into two sums. -/
theorem sum_map_add_distrib (f g : ℕ → ℚ) (l : List ℕ) :
    (l.map (fun x => f x + g x)).sum = (l.map f).sum + (l.map g).sum := by
  induction l with
  | nil => simp
  | cons a t ih =>
      simp [ih]
      ring

/-- The 25 per-year tax-savings entries sum to the single year-1 value. -/
theorem tax_savings_sum (inp : Inputs) (n : ℕ) (h : 1 ≤ n) :
    ((List.range n).map (fun i => tax_savings_year inp (i + 1))).sum
      = year1_depreciation_tax_savings inp := by
  induction n with
  | zero => omega
  | succ n ih =>
      rcases Nat.eq_zero_or_pos n with h0 | h0
      · subst h0
        rw [show List.range 1 = [0] from rfl]
        simp [tax_savings_year]
      · have hne : n + 1 ≠ 1 := by omega
        rw [List.range_succ]
        rw [List.map_append, List.sum_append]
        have hz : tax_savings_year inp (n + 1) = 0 := by
          simp [tax_savings_year, hne]
        simp [hz]
        exact ih h0

/-- C5: the Client Summary's closed-form 25-year totals (electric savings,
SREC income, tax benefits, grand total) equal the sums of the corresponding
per-year fields of the 25 cash-flow records. -/
theorem claim_C5 (inp : Inputs) :
    total_electric_savings inp = ((cash_flow inp).map YearRecord.electric_savings).sum
      ∧ total_srec_income inp = ((cash_flow inp).map YearRecord.srec_income).sum
      ∧ year1_depreciation_tax_savings inp = ((cash_flow inp).map YearRecord.tax_savings).sum
      ∧ grand_total inp = ((cash_flow inp).map YearRecord.total_benefit).sum := by
  have hconv : ∀ g : YearRecord → ℚ,
      (cash_flow inp).map g = (List.range 25).map (fun i => g (year_record inp (i + 1))) := by
    intro g
    rw [cash_flow, List.map_map]
    rfl
  have hE : total_electric_savings inp
      = ((List.range 25).map (fun i => savings_year inp (i + 1))).sum := by
    rw [total_electric_savings]
    congr 1
    apply List.map_congr_left
    intro i hi
    simp only [savings_year, production_year, electric_rate_year, Nat.add_sub_cancel]
    ring
  have hI : total_srec_income inp
      = ((List.range 25).map (fun i => srec_income_year inp (i + 1))).sum := by
    rw [total_srec_income]
    congr 1
    apply List.map_congr_left
    intro i hi
    simp only [srec_income_year, srecs_year, srec_val_year, acp_for_year,
               production_year, Nat.add_sub_cancel]
    split_ifs with h
    · ring
    · ring
  have hT : year1_depreciation_tax_savings inp
      = ((List.range 25).map (fun i => tax_savings_year inp (i + 1))).sum :=
    (tax_savings_sum inp 25 (by omega)).symm
  refine ⟨by rw [hE, hconv]; rfl, by rw [hI, hconv]; rfl, by rw [hT, hconv]; rfl, ?_⟩
  rw [grand_total, hE, hI, hT, hconv]
  have hsplit : ((List.range 25).map (fun i => total_benefit_year inp (i + 1))).sum
      = ((List.range 25).map (fun i => savings_year inp (i + 1))).sum
        + ((List.range 25).map (fun i => srec_income_year inp (i + 1))).sum
        + ((List.range 25).map (fun i => tax_savings_year inp (i + 1))).sum := by
    rw [show (fun i => total_benefit_year inp (i + 1))
          = fun i => (savings_year inp (i + 1) + srec_income_year inp (i + 1))
              + tax_savings_year inp (i + 1) from funext fun i => by
        simp [total_benefit_year]]
    rw [sum_map_add_distrib (fun i => savings_year inp (i + 1)
          + srec_income_year inp (i + 1)) (fun i => tax_savings_year inp (i + 1))]
    rw [sum_map_add_distrib (fun i => savings_year inp (i + 1))
          (fun i => srec_income_year inp (i + 1))]
  rw [show ((List.range 25).map (fun i => (year_record inp (i + 1)).total_benefit)).sum
        = ((List.range 25).map (fun i => total_benefit_year inp (i + 1))).sum from rfl]
  rw [hsplit]

/-- C9: the (spec-modelled) Pricing Aggregator errors exactly on a negative
unit cost or non-positive system size, and succeeds with the summed unit cost
and the derived total cost on every valid input. -/
theorem claim_C9 (p : PricingSchedule) (size_kw : ℚ) :
    ((∃ c ∈ pricing_costs p, c < 0) ∨ size_kw ≤ 0 →
        ∃ e, aggregate_pricing p size_kw = Except.error e)
      ∧ ((∀ c ∈ pricing_costs p, 0 ≤ c) → 0 < size_kw →
          aggregate_pricing p size_kw
            = Except.ok ((pricing_costs p).sum, (pricing_costs p).sum * (size_kw * 1000))) := by
  constructor
  · intro h
    by_cases hneg : (pricing_costs p).any (fun c => decide (c < 0)) = true
    · exact ⟨ValidationError.negativeCost, by simp [aggregate_pricing, hneg]⟩
    · rw [Bool.not_eq_true] at hneg
      have hsz : size_kw ≤ 0 := by
        rcases h with ⟨c, hc, hlt⟩ | h
        · exfalso
          have : (pricing_costs p).any (fun c => decide (c < 0)) = true := by
            rw [List.any_eq_true]
            exact ⟨c, hc, by simpa using hlt⟩
          rw [this] at hneg
          exact Bool.noConfusion hneg
        · exact h
      exact ⟨ValidationError.nonPositiveSize, by simp [aggregate_pricing, hneg, hsz]⟩
  · intro hall hpos
    have hneg : (pricing_costs p).any (fun c => decide (c < 0)) = false := by
      rw [Bool.eq_false_iff]
      intro hc
      rw [List.any_eq_true] at hc
      obtain ⟨c, hc, hlt⟩ := hc
      exact absurd (hall c hc) (by simpa using hlt)
    simp [aggregate_pricing, hneg, not_le.mpr hpos]

theorem claim_C9_witness :
    (∀ c ∈ pricing_costs exInp.pricing, 0 ≤ c)
      ∧ (0 : ℚ) < 100
      ∧ aggregate_pricing exInp.pricing 100
          = Except.ok ((pricing_costs exInp.pricing).sum,
              (pricing_costs exInp.pricing).sum * (100 * 1000)) :=
  ⟨by decide, by decide,
    (claim_C9 exInp.pricing 100).2 (by decide) (by decide)⟩

end SolarProforma
